import Mathlib

/-!
Verification of the HorseLinc server (Express/Mongoose CRUD application).

This file gives a shallow embedding of the parts of the server relevant to
the business rules under scrutiny:

* the `_owners` percentage validator of the Horse schema (`horse.model.js`);
* the payment creation flow of `payment.controller.js` (`PaymentController.create`),
  including the pending-transfer construction, the single Stripe charge, the
  per-transfer payout bookkeeping, the rollback on a failed charge, and the
  `paidInFullAt` marking;
* the payment guards of `InvoiceController.update` / `InvoiceController.destroy`
  (`invoice.controller.js`);
* the paid guard of `RequestController.update` (`request.controller.js`);
* the CSV export of the Invoice model (`invoice.model.js`).

Conventions of the embedding:

* JavaScript numbers are modelled as `ℚ` (exact rationals); `Number.toFixed`
  is modelled as decimal rounding half-up, idealizing IEEE-754 doubles.
* Mongo documents are Lean structures; document ids are `Nat`.
* Dates only matter through presence (`deletedAt`, `paidAt`, `paidInFullAt`
  are `Option Unit`: `some ()` means the timestamp is set).
* Database queries are modelled by passing the relevant document lists to the
  controller functions; `Model.find` is `List.filter`, `findById`/`findOne`
  is `List.find?` or an `Option` argument.
* Stripe is an oracle: the outcome of the one charge and of each transfer
  call (in call order) is a parameter of the embedding.
* Side-effect email sends are recorded as events carrying the recipients and
  the subject line; push notifications are not modelled.
* `utils.respondWithError`, `utils.respondWithResult`,
  `utils.handleEntityNotFound` and `utils.handleError` live in
  `server/components/utils` (response-formatting helpers); responses are
  modelled abstractly by constructors distinguishing an error response, a
  success JSON response (with its HTTP status) and the not-found/server-error
  cases.
-/

namespace HorseLinc

/-- JavaScript `x.toFixed(2)` read back as a number: round to the nearest
hundredth (half-up), idealizing binary floating point. -/
def jsToFixed2 (q : ℚ) : ℚ := ((⌊q * 100 + 1/2⌋ : ℤ) : ℚ) / 100

/-- JavaScript `x.toFixed()` read back as a number: round to the nearest
integer (half-up). -/
def jsToFixed0 (q : ℚ) : ℚ := ((⌊q + 1/2⌋ : ℤ) : ℚ)

/-- Embedding of `ownerPercentage` (payment.controller.js): a user's
percentage of a total amount, `(percentOfInvoice / 100) * amount`. -/
def ownerPercentage (percentOfInvoice amount : ℚ) : ℚ :=
  percentOfInvoice / 100 * amount

/-- Embedding of the pending-transfer amount
`+(originalTotal.toFixed(2) * 100).toFixed(2)` (payment.controller.js):
round to cents, then express in cents. -/
def transferCentsAmount (q : ℚ) : ℚ := jsToFixed2 (jsToFixed2 q * 100)

/-- Embedding of `Horse.backwardsCompatibilityError()` (horse.model.js). -/
def backwardsCompatibilityError : String :=
  "An important update to this app has been released, please upgrade before using this feature."

/-- A user document, restricted to the fields the modelled controllers read. -/
structure SUser where
  uid : Nat
  name : String
  email : String
  roles : List String
  stripeCustomerId : Option String
  stripeSellerId : String
  accountSetupComplete : Bool
deriving DecidableEq

/-- Embedding of `User.isManager` (user.model.js):
`user.roles.includes('horse manager')`. -/
def isManager (user : SUser) : Bool := user.roles.contains "horse manager"

/-- A line item of a request: `{ rate, quantity }` as read by the request /
invoice update totals. `quantity` is optional (`currentValue.quantity || 1`). -/
structure Service where
  rate : ℚ
  quantity : Option ℚ
deriving DecidableEq

/-- Total of a list of services as computed by `RequestController.update` and
`InvoiceController.update`:
`reduce((acc, s) => acc + Number(s.rate) * (s.quantity || 1), 0)`. -/
def servicesTotal : List Service → ℚ
  | [] => 0
  | s :: rest => s.rate * (s.quantity.getD 1) + servicesTotal rest

/-- A request document, restricted to the fields the modelled controllers
read. `_serviceProvider` and `_reassignedTo` are the populated user docs. -/
structure SRequest where
  rid : Nat
  total : ℚ
  services : List Service
  paidAt : Option Unit
  deletedAt : Option Unit
  _serviceProvider : SUser
  _reassignedTo : Option SUser
deriving DecidableEq

/-- An entry of `invoice._payingUsers` (the `Owner` subdocument schema,
owner.schema.js): a populated user together with a percentage split. -/
structure POwner where
  _user : SUser
  percentage : ℚ
deriving DecidableEq

/-- A transaction subdocument of a payment (payment.model.js), as pushed by
`PaymentController.create` after each transfer attempt. -/
structure Transaction where
  transactionType : String
  _request : Option Nat
  _serviceProvider : Option Nat
  _submittedBy : Nat
  _payingUser : Nat
  transferId : String
  transactionId : String
deriving DecidableEq

/-- A payment document, restricted to the fields the modelled controllers
read and write. -/
structure SPayment where
  pid : Nat
  _invoice : Nat
  _payingUser : Nat
  _serviceProvider : Option Nat
  _paymentSubmittedBy : Nat
  amount : ℚ
  tip : ℚ
  transactions : List Transaction
deriving DecidableEq

/-- An invoice document, restricted to the fields the modelled controllers
read and write; reference fields are the populated documents. `_horse` is
not required by the invoice schema, so only its presence is tracked: the
update handler's success tail dereferences `populatedInvoice._horse`. -/
structure SInvoice where
  iid : Nat
  amount : ℚ
  tip : Option ℚ
  deletedAt : Option Unit
  paidInFullAt : Option Unit
  paidOutsideAppAt : Option Unit
  _horse : Option Unit
  _serviceProvider : SUser
  _requests : List SRequest
  _payingUsers : List POwner
  paymentApprovals : List SUser
  _reassignees : List SUser
deriving DecidableEq

/-- An outgoing email, recorded as an event: the recipient addresses
(`to`/`bcc` combined) and the subject line. Template payloads are not
modelled. -/
structure EmailEvent where
  recipients : List String
  subject : String
deriving DecidableEq

/- ------------------------------------------------------------------
Horse schema: `_owners` percentage validator (horse.model.js).
------------------------------------------------------------------ -/

/-- An entry of `horse._owners` (owner.schema.js). -/
structure HorseOwner where
  _user : Nat
  percentage : ℚ
deriving DecidableEq

/-- Sum of the owners' percentage fields,
`owners.reduce((acc, o) => acc + +o.percentage, 0)`. -/
def ownersPercentageSum : List HorseOwner → ℚ
  | [] => 0
  | o :: rest => o.percentage + ownersPercentageSum rest

/-- Embedding of the `_owners` validator function of the Horse schema:
`if (owners.length) { ... return sum === 100; }`. A JS function that falls
off the end returns `undefined`, modelled as `none`. -/
def ownersValidator (owners : List HorseOwner) : Option Bool :=
  if owners.length ≠ 0 then some (decide (ownersPercentageSum owners = 100)) else none

/-- Mongoose accepts a custom validator's result unless it is a defined falsy
value (`if (ok === undefined || ok)` passes in mongoose `doValidate`); an
`undefined` return therefore passes. External-library semantics. -/
def mongooseValidatorPasses : Option Bool → Bool
  | none => true
  | some b => b

/-- A horse document, restricted to the fields relevant to its `_owners`
validator. -/
structure SHorse where
  hid : Nat
  barnName : String
  showName : String
  _owners : List HorseOwner
deriving DecidableEq

/-- Persisting a horse (`Horse.create` / `horse.save()` in
horse.controller.js) runs the schema validators: saving succeeds returning
the stored document, or is rejected with the validator's message and nothing
is stored. -/
def horseSave (h : SHorse) : Except String SHorse :=
  if mongooseValidatorPasses (ownersValidator h._owners) then .ok h
  else .error "Ownership must total 100%"

/- ------------------------------------------------------------------
Invoice CSV export (invoice.model.js).

JavaScript strings are modelled as `List Char` here, so that `slice(0, -1)`
is `List.dropLast`. The per-invoice cell values are produced by instance
getters (`getPaymentType`, `getInvoiceDate`, ..., `getTotalAmountPaid`)
that read the document and the database; they are passed in as the resolved
`CsvFields` of each invoice, which is the boundary of this embedding.
------------------------------------------------------------------ -/

/-- JavaScript strings for the CSV export: sequences of characters ("code
units"). -/
abbrev JsStr := List Char

/-- Characters stripped by JavaScript `String.prototype.trim`. -/
def jsWhitespace (c : Char) : Bool :=
  c == ' ' || c == '\t' || c == '\n' || c == '\r'

/-- JavaScript `s.trim()`: strip leading and trailing whitespace. -/
def jsTrim (l : JsStr) : JsStr :=
  ((l.dropWhile jsWhitespace).reverse.dropWhile jsWhitespace).reverse

/-- The resolved cell values of one invoice row, i.e. the results of the
getters called at the top of `toCsvRow`. -/
structure CsvFields where
  paymentType : JsStr
  invoiceDate : JsStr
  paymentDate : JsStr
  invoiceTotal : JsStr
  invoiceTip : JsStr
  totalAmountPaid : JsStr
  amountPaidByUser : JsStr
  invoicePayers : JsStr
  mainServiceProviderName : JsStr
  reassigneeNames : JsStr
  concatenatedDescription : JsStr
deriving DecidableEq

/-- An invoice as consumed by `convertAllToCsv`: its resolved row cells plus
the numeric values of `new Date(getInvoiceDate())` and
`new Date(getPaymentDate())` used by the sort comparator. -/
structure CsvInvoice where
  fields : CsvFields
  invoiceDateKey : Int
  paymentDateKey : Int
deriving DecidableEq

/-- Embedding of `InvoiceSchema.statics.getCsvHeaders(user)`: fixed header
row, horse-manager or service-provider column layout. -/
def getCsvHeaders (user : SUser) : JsStr :=
  if isManager user then
    ("Payment Type, Invoice Date, Payment Date, Invoice Total, Tip Amount, Total Amount Paid, Amount Paid By Me, Paid By, Service Provider, Reassigned To, Description\r\n").data
  else
    ("Payment Type, Invoice Date, Payment Date, Invoice Total, Tip Amount, Total Amount Paid, Paid By, Reassigned To, Description\r\n").data

/-- The `rowOutput` string built by `InvoiceSchema.methods.toCsvRow` before
the final `slice(0, -1)`: every cell is appended with a trailing comma, and
the `Amount Paid By Me` / `Service Provider` cells are appended only for a
horse manager. -/
@[irreducible] def rawCsvRow (user : SUser) (f : CsvFields) : JsStr :=
  f.paymentType ++ (",").data ++
  f.invoiceDate ++ (",").data ++
  f.paymentDate ++ (",").data ++
  f.invoiceTotal ++ (",").data ++
  f.invoiceTip ++ (",").data ++
  f.totalAmountPaid ++ (",").data ++
  (if isManager user then f.amountPaidByUser ++ (",").data else []) ++
  f.invoicePayers ++ (",").data ++
  (if isManager user then f.mainServiceProviderName ++ (",").data else []) ++
  f.reassigneeNames ++ (",").data ++
  f.concatenatedDescription ++ (",").data

/-- Embedding of `InvoiceSchema.methods.toCsvRow`: build the row and clip
off the last trailing comma (`rowOutput.slice(0, -1)`). -/
@[irreducible] def toCsvRow (user : SUser) (f : CsvFields) : JsStr :=
  (rawCsvRow user f).dropLast

/-- The sort comparator of `convertAllToCsv` as a `≤` test: the JS
comparator returns `dateOf(tupleTwo) - dateOf(tupleOne)`, sorting newest
first by invoice date for managers and by payment date for providers. -/
def csvSortLe (user : SUser) (a b : CsvInvoice × JsStr) : Bool :=
  if isManager user then
    decide (b.1.invoiceDateKey - a.1.invoiceDateKey ≤ 0)
  else
    decide (b.1.paymentDateKey - a.1.paymentDateKey ≤ 0)

/-- Embedding of `InvoiceSchema.statics.convertAllToCsv(invoices, user)`:
headers, then one `toCsvRow` line per invoice (sorted newest first), each
terminated by CRLF, with the final output trimmed. The concurrent
`Promise.map` row collection is modelled in list order; the JS
`Array.prototype.sort` is modelled by a stable merge sort with the
comparator. -/
def convertAllToCsv (invoices : List CsvInvoice) (user : SUser) : JsStr :=
  let fileOutput := getCsvHeaders user
  let unsortedInvoicesWithRows := invoices.map (fun invoice => (invoice, toCsvRow user invoice.fields))
  let sortedInvoicesAndRows := unsortedInvoicesWithRows.mergeSort (csvSortLe user)
  jsTrim (fileOutput ++ (sortedInvoicesAndRows.map (fun t => t.2 ++ ("\r\n").data)).flatten)

/- ------------------------------------------------------------------
Invoice controller: update / destroy payment guards
(invoice.controller.js).
------------------------------------------------------------------ -/

/-- Responses of the plain CRUD handlers, abstracting
`utils.respondWithError` / `utils.respondWithResult` /
`utils.handleEntityNotFound` / `utils.handleError` (the response-formatting
helpers of `server/components/utils`). -/
inductive ApiResponse where
  | errorResponse (msg : String)
  | ok
  | notFound
  | serverError
deriving DecidableEq

/-- One request object of an invoice-update body: the id and the edited
services. Other whitelisted request fields do not feed the update. -/
structure RequestEdit where
  rid : Nat
  services : List Service
deriving DecidableEq

/-- The sanitized body of `InvoiceController.update`
(`WHITELIST_REQUEST_ATTRIBUTES` includes `_id`, `_requests` and `tip`;
remaining whitelisted fields are not modelled as nothing reads them
here). -/
structure InvoiceUpdateBody where
  _id : Nat
  _requests : List RequestEdit
  tip : Option ℚ
deriving DecidableEq

/-- The request-rewriting loop of `InvoiceController.update`
(`Promise.map` over `updatedInvoice._requests`, modelled sequentially):
each edited request found in the database gets the new services and the
recomputed total, and the new invoice total accumulates. -/
def applyRequestEdits : List RequestEdit → List SRequest → List SRequest × ℚ
  | [], db => (db, 0)
  | e :: rest, db =>
    match db.find? (fun r => r.rid == e.rid) with
    | some _ =>
      let newTotal := servicesTotal e.services
      let db1 := db.map (fun r =>
        if r.rid == e.rid then { r with services := e.services, total := newTotal } else r)
      let (db2, acc) := applyRequestEdits rest db1
      (db2, newTotal + acc)
    | none => applyRequestEdits rest db

/-- Result of the invoice update/destroy handlers: the response plus the
request and invoice collections after the handler ran. -/
structure InvoiceMutationResult where
  response : ApiResponse
  requests : List SRequest
  invoices : List SInvoice
deriving DecidableEq

/-- The `_.assign(invoice, updatedInvoice)` step of
`InvoiceController.update`, as persisted by the subsequent `invoice.save()`.
It is applied only on the branch where the body `_id` equals the stored
`_id` (otherwise the save, keyed on the mutated `_id`, fails and nothing is
written), so the `iid := body._id` assignment is the identity there;
`amount` is the recomputed total and `_requests` is re-cast from the body's
request list. -/
def assignInvoice (invoice : SInvoice) (body : InvoiceUpdateBody)
    (newInvoiceTotal : ℚ) (requestsDb : List SRequest) : SInvoice :=
  { invoice with
    iid := body._id,
    amount := newInvoiceTotal,
    tip := match body.tip with | some t => some t | none => invoice.tip,
    _requests := body._requests.filterMap (fun e => requestsDb.find? (fun r => r.rid == e.rid)) }

/-- Embedding of `InvoiceController.update`: the payment guard queries
payments by the body-supplied `_id`, while the mutation targets the path id
(`req.params.id`). On the guard path nothing is modified; otherwise the
body's request edits are persisted first, and then the invoice found under
the path id gets the body assigned over it (`_.assign`, including the
whitelisted `_id`) and saved:

* when the body `_id` differs from the stored `_id`, the save is keyed on
  the mutated `_id`; no Mongoose/MongoDB semantics writes a changed `_id`
  over the existing document, so the path-id invoice is not written and the
  resulting error funnels through `utils.handleError` (the update could at
  most land on the document named by the body `_id`; in either external
  reading the path-id document stays unwritten and the response is not the
  payment-guard rejection);
* when the two ids agree, the document is written; the success response is
  produced only after the re-query/notification tail, which dereferences
  the optional `populatedInvoice._horse`, so an invoice without a horse
  500s after the save. -/
def invoiceUpdate (body : InvoiceUpdateBody) (paramsId : Nat)
    (payments : List SPayment) (requests : List SRequest)
    (invoices : List SInvoice) : InvoiceMutationResult :=
  let invoicePayments := payments.filter (fun p => p._invoice == body._id)
  if invoicePayments.length ≠ 0 then
    { response := .errorResponse "Invoice cannot be updated once a payment has been made.",
      requests := requests, invoices := invoices }
  else
    let (requests1, newInvoiceTotal) := applyRequestEdits body._requests requests
    match invoices.find? (fun i => i.iid == paramsId) with
    | some invoice =>
      if body._id ≠ invoice.iid then
        { response := .serverError, requests := requests1, invoices := invoices }
      else
        let updated := assignInvoice invoice body newInvoiceTotal requests1
        { response := if invoice._horse.isSome then .ok else .serverError,
          requests := requests1,
          invoices := invoices.map (fun i => if i.iid == paramsId then updated else i) }
    | none =>
      { response := .notFound, requests := requests1, invoices := invoices }

/-- Embedding of `InvoiceController.destroy`: authorization check, then the
payment guard (keyed on the path id), then soft-deletion of the invoice and
of each of its requests. -/
def invoiceDestroy (paramsId : Nat) (reqUser : SUser) (payments : List SPayment)
    (requests : List SRequest) (invoices : List SInvoice) : InvoiceMutationResult :=
  match invoices.find? (fun i => i.iid == paramsId) with
  | some invoice =>
    if invoice._serviceProvider.uid ≠ reqUser.uid then
      { response := .errorResponse "You are not authorized to delete this invoice.",
        requests := requests, invoices := invoices }
    else
      let invoicePayments := payments.filter (fun p => p._invoice == paramsId)
      if invoicePayments.length ≠ 0 then
        { response := .errorResponse "There is already a payment against this invoice.",
          requests := requests, invoices := invoices }
      else
        { response := .ok,
          requests := requests.map (fun r =>
            if (invoice._requests.map (fun q => q.rid)).contains r.rid then
              { r with deletedAt := some () }
            else r),
          invoices := invoices.map (fun i =>
            if i.iid == paramsId then { invoice with deletedAt := some () } else i) }
  | none =>
    { response := .notFound, requests := requests, invoices := invoices }

/- ------------------------------------------------------------------
Request controller: update paid guard (request.controller.js).
------------------------------------------------------------------ -/

/-- A user reference object carried inside a request body (`{ _id, name,
... }`). -/
structure UserRef where
  _id : Nat
  name : String
deriving DecidableEq

/-- The body of `RequestController.update`, restricted to what feeds the
guard, the unconditional dereferences, and the persisted fields: the (raw,
pre-sanitization) `_id` used by the guard lookup; the `_serviceProvider`
object whose `_id` is read unconditionally before the save; the
`_reassignedTo` and `_horseManager` objects (the latter's `name` is read on
the success path after the save); and the whitelisted `services` persisted
with the recomputed total. A body without a `services` array throws before
the save (`updatedRequest.services.forEach`) and is outside this model. -/
structure RequestUpdateBody where
  _id : Nat
  services : List Service
  _serviceProvider : Option UserRef
  _reassignedTo : Option UserRef
  _horseManager : Option UserRef
deriving DecidableEq

/-- Result of the request update handler. -/
structure RequestUpdateResult where
  response : ApiResponse
  requests : List SRequest
deriving DecidableEq

/-- Embedding of `RequestController.update`: the paid guard reads the
document fetched by the body-supplied `_id`
(`Request.findById(req.body._id)`), while the persisted document is the one
under the path id (`Request.findOne({ _id: req.params.id })`). A missing
body `_id` document makes `originalRequest.paidAt` throw (server error).
After the guard, `String(req.body._serviceProvider._id)` is evaluated
unconditionally: a body without `_serviceProvider` throws there, before any
save. On the success path, after `_.assign(request, updatedRequest)` and
`request.save()` have persisted the body's `services` and the recomputed
`total` onto the path-id document, the notification block reads
`updatedRequest._horseManager.name`: a body without `_horseManager` 500s
there, after the save (the stored `request._horse` read in between is a
schema-required field). The request's `_id` is not whitelisted, so the save
is keyed on the unchanged path id. Reassignment bookkeeping
(`_previousReassignees`, `declinedAt`/`acceptedAt` resets, the assigned
reference fields) and the notification payloads are side channels not
modelled. -/
def requestUpdate (body : RequestUpdateBody) (paramsId : Nat)
    (requests : List SRequest) : RequestUpdateResult :=
  match requests.find? (fun r => r.rid == body._id) with
  | none => { response := .serverError, requests := requests }
  | some originalRequest =>
    if originalRequest.paidAt.isSome then
      { response := .errorResponse "This request has already been paid", requests := requests }
    else
      match body._serviceProvider with
      | none => { response := .serverError, requests := requests }
      | some _ =>
        let updatedTotal := servicesTotal body.services
        match requests.find? (fun r => r.rid == paramsId) with
        | some _ =>
          let requests1 := requests.map (fun r =>
            if r.rid == paramsId then
              { r with services := body.services, total := updatedTotal }
            else r)
          match body._horseManager with
          | none => { response := .serverError, requests := requests1 }
          | some _ => { response := .ok, requests := requests1 }
        | none => { response := .notFound, requests := requests }

/- ------------------------------------------------------------------
Payment controller: create (payment.controller.js).
------------------------------------------------------------------ -/

/-- Process environment configuration read by the payment controller. -/
structure Env where
  serviceFeePercent : ℚ
  adminEmail : String
  fromEmail : String
deriving DecidableEq

/-- The `currency` constant of payment.controller.js. -/
def currency : String := "usd"

/-- The sanitized body of `PaymentController.create`
(`WHITELIST_REQUEST_ATTRIBUTES` of the payment controller): the fields the
handler reads. `_payingUser` and `tip` may be absent. -/
structure PaymentBody where
  _invoice : Nat
  tip : Option ℚ
  percentOfInvoice : ℚ
  invoiceTotal : ℚ
  _payingUser : Option Nat
  _serviceProvider : Option Nat
  uuid : Option String
deriving DecidableEq

/-- Outcome of the single `stripe.charges.create` call: the call throws, or
returns a charge with an id and a possible `failure_message`. -/
inductive ChargeOutcome where
  | threw (msg : String)
  | charged (chargeId : String) (failureMessage : Option String)
deriving DecidableEq

/-- The Stripe oracle: the outcome of the charge, and of the n-th
`stripe.transfers.create` call (`.ok transferId` or `.error message`). -/
structure StripeOracle where
  charge : ChargeOutcome
  transfer : Nat → Except String String

/-- A pending transfer assembled under the single charge. -/
structure PendingTransfer where
  amount : ℚ
  currency : String
  destination : String
deriving DecidableEq

/-- The `Promise.each(invoice._requests, ...)` loop of
`PaymentController.create`: for each request, the owner percentage of the
request total, the service fee accumulation into the running invoice total,
the destination account (the reassignee if the request was reassigned,
otherwise the request's service provider), and the pending transfer with its
amount in cents. Returns the pending transfers (each paired with its
request) and the requests' contribution to `runningInvoiceTotal`. -/
def buildRequestTransfers (serviceFeePercent percentOfInvoice : ℚ) :
    List SRequest → List (PendingTransfer × Option SRequest) × ℚ
  | [] => ([], 0)
  | requestObj :: rest =>
    let originalTotal := ownerPercentage percentOfInvoice requestObj.total
    let serviceFeeAmount := originalTotal * serviceFeePercent
    let totalChargeAmt := originalTotal + serviceFeeAmount
    let destinationAccount :=
      match requestObj._reassignedTo with
      | some reassignee => reassignee
      | none => requestObj._serviceProvider
    let pendingTransfer : PendingTransfer :=
      { amount := transferCentsAmount originalTotal,
        currency := currency,
        destination := destinationAccount.stripeSellerId }
    let (restTransfers, restTotal) :=
      buildRequestTransfers serviceFeePercent percentOfInvoice rest
    ((pendingTransfer, some requestObj) :: restTransfers, totalChargeAmt + restTotal)

/-- The token stored on a transaction: the transfer id when the Stripe
transfer call succeeded, the empty string when it threw
(`let transferToken = ''; if (transfer) transferToken = transfer.id`). -/
def transferToken : Except String String → String
  | .ok transfer => transfer
  | .error _ => ""

/-- The transaction pushed onto `populatedPayment.transactions` in the
`finally` block after a transfer attempt: a `request` transaction pointing
at the payout's service provider when the transfer had a request, a `tip`
transaction otherwise. -/
def mkTransaction (chargeId : String) (submittedBy payingUser : Nat)
    (bodyServiceProvider : Option Nat) (oreq : Option SRequest)
    (token : String) : Transaction :=
  match oreq with
  | some request =>
    let destinationAccount :=
      match request._reassignedTo with
      | some reassignee => reassignee
      | none => request._serviceProvider
    { transactionType := "request",
      _request := some request.rid,
      _serviceProvider := some destinationAccount.uid,
      _submittedBy := submittedBy,
      _payingUser := payingUser,
      transferId := token,
      transactionId := chargeId }
  | none =>
    { transactionType := "tip",
      _request := none,
      _serviceProvider := bodyServiceProvider,
      _submittedBy := submittedBy,
      _payingUser := payingUser,
      transferId := token,
      transactionId := chargeId }

/-- The emails sent from the `catch` of a failed transfer: to the admin
address with the affected provider(s) in bcc, subject `Stripe Payout
Failure` (two sends for a reassigned request, one otherwise; the tip payout
reports the invoice's main service provider). -/
def payoutFailureEmails (adminEmail invoiceProviderEmail : String) :
    Option SRequest → List EmailEvent
  | some request =>
    match request._reassignedTo with
    | some reassignee =>
      [{ recipients := [adminEmail, reassignee.email], subject := "Stripe Payout Failure" },
       { recipients := [adminEmail, reassignee.email], subject := "Stripe Payout Failure" }]
    | none =>
      [{ recipients := [adminEmail, request._serviceProvider.email],
         subject := "Stripe Payout Failure" }]
  | none =>
    [{ recipients := [adminEmail, invoiceProviderEmail], subject := "Stripe Payout Failure" }]

/-- The `Promise.each(pendingTransfers, ...)` payout loop: each Stripe
transfer call is tried individually (the i-th pending transfer uses the i-th
oracle outcome); a failure increments `failedPayoutCount` and sends the
failure emails; the `finally` block always appends exactly one transaction.
Returns the appended transactions, the failed payout count and the emitted
emails. -/
def processTransfers (tr : Nat → Except String String) (chargeId : String)
    (submittedBy payingUser : Nat) (bodyServiceProvider : Option Nat)
    (adminEmail invoiceProviderEmail : String) :
    Nat → List (PendingTransfer × Option SRequest) →
    List Transaction × Nat × List EmailEvent
  | _, [] => ([], 0, [])
  | i, (_, oreq) :: rest =>
    let result := tr i
    let (txns, fails, emails) :=
      processTransfers tr chargeId submittedBy payingUser bodyServiceProvider
        adminEmail invoiceProviderEmail (i + 1) rest
    let failContribution : Nat × List EmailEvent :=
      match result with
      | .ok _ => (0, [])
      | .error _ => (1, payoutFailureEmails adminEmail invoiceProviderEmail oreq)
    (mkTransaction chargeId submittedBy payingUser bodyServiceProvider oreq
       (transferToken result) :: txns,
     failContribution.1 + fails,
     failContribution.2 ++ emails)

/-- The receipt emails of `emailInvoiceReceipt(invoice)`: one to the paying
users and approvers, one to the main service provider, one per reassignee,
all with subject `HorseLinc - Invoice Paid In Full`. -/
def emailInvoiceReceipt (invoice : SInvoice) : List EmailEvent :=
  { recipients := invoice._payingUsers.map (fun payer => payer._user.email) ++
      invoice.paymentApprovals.map (fun approver => approver.email),
    subject := "HorseLinc - Invoice Paid In Full" } ::
  { recipients := [invoice._serviceProvider.email],
    subject := "HorseLinc - Invoice Paid In Full" } ::
  invoice._reassignees.map (fun reassignee =>
    { recipients := [reassignee.email], subject := "HorseLinc - Invoice Paid In Full" })

/-- Responses of `PaymentController.create`: an error response
(`utils.respondWithError`), an explicit `res.status(200).json({ message,
payment })`, or the `next(err)` server-error path. -/
inductive CreateResponse where
  | errorResponse (msg : String)
  | okJson (status : Nat) (message : String) (payment : SPayment)
  | serverError
deriving DecidableEq

/-- Observable outcome of `PaymentController.create`: the response, the
payment collection, the invoice and request documents after the handler,
the emails sent, whether the Stripe charge was attempted (and its amount in
cents), the failed payout count, the assembled pending transfers, and the
saved payment document (none when no payment survived). -/
structure CreateResult where
  response : CreateResponse
  payments : List SPayment
  invoice : Option SInvoice
  requests : List SRequest
  emails : List EmailEvent
  chargeAttempted : Bool
  chargeAmountCents : Option ℚ
  failedPayoutCount : Nat
  pendingTransfers : List (PendingTransfer × Option SRequest)
  savedPayment : Option SPayment

/-- The `catch` path of the charge: email the admin (`Stripe Charge
Failure`), delete the just-created payment, null out `paidInFullAt`, save
the invoice, and answer with the error's message (or the fallback text). -/
def paymentCreateChargeFailed (env : Env) (invoice : SInvoice)
    (payments : List SPayment) (msg : String) (chargeAmountCents : ℚ)
    (pendingTransfers : List (PendingTransfer × Option SRequest)) : CreateResult :=
  { response := .errorResponse
      (if msg = "" then "Your payment did not go through. Please contact HorseLinc." else msg),
    payments := payments,
    invoice := some { invoice with paidInFullAt := none },
    requests := invoice._requests,
    emails := [{ recipients := [env.adminEmail], subject := "Stripe Charge Failure" }],
    chargeAttempted := true,
    chargeAmountCents := some chargeAmountCents,
    failedPayoutCount := 0,
    pendingTransfers := pendingTransfers,
    savedPayment := none }

/-- The path where the charge returned but carried a `failure_message`: the
whole `if (charge && !charge.failure_message)` block is skipped, no payouts
run, the invoice is untouched, and the final response is taken with
`failedPayoutCount` still zero. -/
def paymentCreateSkippedPayouts (invoice : SInvoice) (payments : List SPayment)
    (newPayment : SPayment) (chargeAmountCents : ℚ)
    (pendingTransfers : List (PendingTransfer × Option SRequest)) : CreateResult :=
  if invoice.paidInFullAt.isSome then
    { response := .okJson 200 "Invoice paid in full" newPayment,
      payments := payments ++ [newPayment],
      invoice := some invoice,
      requests := invoice._requests.map (fun r => { r with paidAt := some () }),
      emails := [],
      chargeAttempted := true,
      chargeAmountCents := some chargeAmountCents,
      failedPayoutCount := 0,
      pendingTransfers := pendingTransfers,
      savedPayment := some newPayment }
  else
    { response := .okJson 200 "Payment successful" newPayment,
      payments := payments ++ [newPayment],
      invoice := some invoice,
      requests := invoice._requests,
      emails := [],
      chargeAttempted := true,
      chargeAmountCents := some chargeAmountCents,
      failedPayoutCount := 0,
      pendingTransfers := pendingTransfers,
      savedPayment := some newPayment }

/-- The path where the charge worked: run the payouts (appending one
transaction each and saving the payment), re-query the invoice's payments,
store the tip on the first payment, set `paidInFullAt` when every paying
user has a payment, save the invoice, send the receipt emails if it is now
paid in full, then respond — a cautionary 200 when any payout failed,
otherwise `Invoice paid in full` (also marking every request paid) or
`Payment successful`. -/
def paymentCreateAfterSuccess (env : Env) (body : PaymentBody) (invoice : SInvoice)
    (payments : List SPayment) (newPayment : SPayment) (chargeAmountCents : ℚ)
    (pendingTransfers : List (PendingTransfer × Option SRequest))
    (chargeId : String) (tr : Nat → Except String String) : CreateResult :=
  let processed :=
    processTransfers tr chargeId newPayment._paymentSubmittedBy newPayment._payingUser
      body._serviceProvider env.adminEmail invoice._serviceProvider.email 0 pendingTransfers
  let txns := processed.1
  let failedPayoutCount := processed.2.1
  let payoutEmails := processed.2.2
  let populatedPayment := { newPayment with transactions := txns }
  let previousPayments := (payments ++ [newPayment]).filter (fun p => p._invoice == body._invoice)
  let invoice1 := if previousPayments.length = 1 then { invoice with tip := body.tip } else invoice
  let invoice2 :=
    if previousPayments.length = invoice._payingUsers.length then
      { invoice1 with paidInFullAt := some () }
    else invoice1
  let receiptEmails := if invoice2.paidInFullAt.isSome then emailInvoiceReceipt invoice2 else []
  let paymentsAfter := payments ++ [populatedPayment]
  if 0 < failedPayoutCount then
    { response := .okJson 200
        "Your payment has been submitted, but it may not have reached its final payee(s). Please contact HorseLinc."
        populatedPayment,
      payments := paymentsAfter,
      invoice := some invoice2,
      requests := invoice._requests,
      emails := payoutEmails ++ receiptEmails,
      chargeAttempted := true,
      chargeAmountCents := some chargeAmountCents,
      failedPayoutCount := failedPayoutCount,
      pendingTransfers := pendingTransfers,
      savedPayment := some populatedPayment }
  else if invoice2.paidInFullAt.isSome then
    { response := .okJson 200 "Invoice paid in full" populatedPayment,
      payments := paymentsAfter,
      invoice := some invoice2,
      requests := invoice._requests.map (fun r => { r with paidAt := some () }),
      emails := payoutEmails ++ receiptEmails,
      chargeAttempted := true,
      chargeAmountCents := some chargeAmountCents,
      failedPayoutCount := failedPayoutCount,
      pendingTransfers := pendingTransfers,
      savedPayment := some populatedPayment }
  else
    { response := .okJson 200 "Payment successful" populatedPayment,
      payments := paymentsAfter,
      invoice := some invoice2,
      requests := invoice._requests,
      emails := payoutEmails ++ receiptEmails,
      chargeAttempted := true,
      chargeAmountCents := some chargeAmountCents,
      failedPayoutCount := failedPayoutCount,
      pendingTransfers := pendingTransfers,
      savedPayment := some populatedPayment }

/-- A `CreateResult` for the early error responses, before any payment is
created or any charge attempted: state is unchanged. -/
def earlyCreateResult (msg : String) (invoice : SInvoice)
    (payments : List SPayment) : CreateResult :=
  { response := .errorResponse msg,
    payments := payments,
    invoice := some invoice,
    requests := invoice._requests,
    emails := [],
    chargeAttempted := false,
    chargeAmountCents := none,
    failedPayoutCount := 0,
    pendingTransfers := [],
    savedPayment := none }

/-- Embedding of `PaymentController.create`. Arguments: the environment,
the authenticated user, the sanitized body, the invoice fetched by
`Invoice.findById(req.body._invoice)` (none when absent, in which case the
property access on `null` throws), the user collection, the payment
collection, the id given to the created payment, and the Stripe oracle. -/
def paymentCreate (env : Env) (reqUser : SUser) (body : PaymentBody)
    (invoice? : Option SInvoice) (users : List SUser) (payments : List SPayment)
    (freshPid : Nat) (oracle : StripeOracle) : CreateResult :=
  match invoice? with
  | none =>
    { response := .serverError, payments := payments, invoice := none, requests := [],
      emails := [], chargeAttempted := false, chargeAmountCents := none,
      failedPayoutCount := 0, pendingTransfers := [], savedPayment := none }
  | some invoice =>
    if invoice.deletedAt.isSome then
      earlyCreateResult "This invoice has been deleted." invoice payments
    else
      match body._payingUser with
      | none => earlyCreateResult backwardsCompatibilityError invoice payments
      | some payingUserId =>
        let percentageOfTip := ownerPercentage body.percentOfInvoice (body.tip.getD 0)
        let paymentAmount := ownerPercentage body.percentOfInvoice body.invoiceTotal
        match users.find? (fun u => u.uid == payingUserId) with
        | none => earlyCreateResult "Sorry, we couldn\x27t find that user." invoice payments
        | some payingUser =>
          if payingUser.stripeCustomerId.isNone || !payingUser.accountSetupComplete then
            earlyCreateResult
              (if payingUser.uid == reqUser.uid then
                "You need to complete your payment information in your profile before you may proceed."
              else
                payingUser.name ++ " needs to complete their payment information in their profile before you may proceed.")
              invoice payments
          else
            let previousPaymentsForUser := payments.filter (fun p =>
              p._invoice == body._invoice && p._payingUser == payingUserId)
            if previousPaymentsForUser.length ≠ 0 then
              earlyCreateResult
                ("A payment has already been made against this invoice for " ++ payingUser.name)
                invoice payments
            else
              let newPayment : SPayment :=
                { pid := freshPid,
                  _invoice := body._invoice,
                  _payingUser := payingUserId,
                  _serviceProvider := body._serviceProvider,
                  _paymentSubmittedBy := reqUser.uid,
                  amount := paymentAmount,
                  tip := percentageOfTip,
                  transactions := [] }
              let (requestTransfers, requestsChargeTotal) :=
                buildRequestTransfers env.serviceFeePercent body.percentOfInvoice invoice._requests
              let (pendingTransfers, runningInvoiceTotal) :=
                if 0 < newPayment.tip then
                  (requestTransfers ++
                    [({ amount := transferCentsAmount newPayment.tip,
                        currency := currency,
                        destination := invoice._serviceProvider.stripeSellerId }, none)],
                   requestsChargeTotal + newPayment.tip)
                else (requestTransfers, requestsChargeTotal)
              let chargeAmountCents := jsToFixed0 (runningInvoiceTotal * 100)
              match oracle.charge with
              | .threw msg =>
                paymentCreateChargeFailed env invoice payments msg chargeAmountCents pendingTransfers
              | .charged chargeId failureMessage =>
                if failureMessage.isSome then
                  paymentCreateSkippedPayouts invoice payments newPayment chargeAmountCents pendingTransfers
                else
                  paymentCreateAfterSuccess env body invoice payments newPayment chargeAmountCents
                    pendingTransfers chargeId oracle.transfer

/-- The payment document created by `Payment.create(newPayment)` on the
guarded path of `PaymentController.create`, spelled out. -/
def newPaymentOf (reqUser : SUser) (body : PaymentBody) (payingUserId freshPid : Nat) : SPayment :=
  { pid := freshPid,
    _invoice := body._invoice,
    _payingUser := payingUserId,
    _serviceProvider := body._serviceProvider,
    _paymentSubmittedBy := reqUser.uid,
    amount := ownerPercentage body.percentOfInvoice body.invoiceTotal,
    tip := ownerPercentage body.percentOfInvoice (body.tip.getD 0),
    transactions := [] }

/-- The pending transfers assembled by `PaymentController.create`: one per
request of the invoice, plus the tip transfer to the main service provider
when the payment's tip is positive. -/
def pendingTransfersOf (env : Env) (body : PaymentBody) (invoice : SInvoice) :
    List (PendingTransfer × Option SRequest) :=
  let requestTransfers :=
    (buildRequestTransfers env.serviceFeePercent body.percentOfInvoice invoice._requests).1
  let percentageOfTip := ownerPercentage body.percentOfInvoice (body.tip.getD 0)
  if 0 < percentageOfTip then
    requestTransfers ++
      [({ amount := transferCentsAmount percentageOfTip,
          currency := currency,
          destination := invoice._serviceProvider.stripeSellerId }, none)]
  else requestTransfers

/-- The `runningInvoiceTotal` accumulated by `PaymentController.create`. -/
def runningTotalOf (env : Env) (body : PaymentBody) (invoice : SInvoice) : ℚ :=
  let requestsChargeTotal :=
    (buildRequestTransfers env.serviceFeePercent body.percentOfInvoice invoice._requests).2
  let percentageOfTip := ownerPercentage body.percentOfInvoice (body.tip.getD 0)
  if 0 < percentageOfTip then requestsChargeTotal + percentageOfTip else requestsChargeTotal

/-- The `chargeObj.amount` of `PaymentController.create`:
`+(runningInvoiceTotal * 100).toFixed()`. -/
def chargeCentsOf (env : Env) (body : PaymentBody) (invoice : SInvoice) : ℚ :=
  jsToFixed0 (runningTotalOf env body invoice * 100)

/- ------------------------------------------------------------------
Concrete sample data used to instantiate the theorems.
------------------------------------------------------------------ -/

/-- A sample main service provider. -/
def sampleProvider : SUser :=
  { uid := 1, name := "Pat Provider", email := "pat@example.com",
    roles := ["service provider"], stripeCustomerId := none,
    stripeSellerId := "acct_provider", accountSetupComplete := true }

/-- A sample reassigned service provider. -/
def sampleReassignee : SUser :=
  { uid := 2, name := "Riley Reassignee", email := "riley@example.com",
    roles := ["service provider"], stripeCustomerId := none,
    stripeSellerId := "acct_reassignee", accountSetupComplete := true }

/-- A sample paying horse manager with a complete Stripe customer setup. -/
def samplePayer : SUser :=
  { uid := 3, name := "Morgan Manager", email := "morgan@example.com",
    roles := ["horse manager"], stripeCustomerId := some "cus_sample",
    stripeSellerId := "", accountSetupComplete := true }

/-- The sample user collection. -/
def sampleUsers : List SUser := [sampleProvider, sampleReassignee, samplePayer]

/-- A sample request kept by the main service provider. -/
def sampleRequest1 : SRequest :=
  { rid := 10, total := 10, services := [], paidAt := none, deletedAt := none,
    _serviceProvider := sampleProvider, _reassignedTo := none }

/-- A sample request reassigned to another provider. -/
def sampleRequest2 : SRequest :=
  { rid := 11, total := 20, services := [], paidAt := none, deletedAt := none,
    _serviceProvider := sampleProvider, _reassignedTo := some sampleReassignee }

/-- A sample invoice over the two sample requests with one paying user. -/
def sampleInvoice : SInvoice :=
  { iid := 100, amount := 30, tip := some 0, deletedAt := none,
    paidInFullAt := none, paidOutsideAppAt := none, _horse := some (),
    _serviceProvider := sampleProvider,
    _requests := [sampleRequest1, sampleRequest2],
    _payingUsers := [{ _user := samplePayer, percentage := 100 }],
    paymentApprovals := [], _reassignees := [sampleReassignee] }

/-- A sample payment-create body: the sample payer pays 100% of the sample
invoice, no tip. -/
def sampleBody : PaymentBody :=
  { _invoice := 100, tip := none, percentOfInvoice := 100, invoiceTotal := 30,
    _payingUser := some 3, _serviceProvider := some 1, uuid := none }

/-- The sample environment. -/
def sampleEnv : Env :=
  { serviceFeePercent := 5/100, adminEmail := "admin@example.com",
    fromEmail := "info@example.com" }

/-- A sample pre-existing payment of the sample payer against the sample
invoice. -/
def samplePayment : SPayment :=
  { pid := 500, _invoice := 100, _payingUser := 3, _serviceProvider := some 1,
    _paymentSubmittedBy := 3, amount := 30, tip := 0, transactions := [] }

/-- A Stripe oracle where the charge and every transfer succeed. -/
def sampleOracleOk : StripeOracle :=
  { charge := .charged "ch_sample" none, transfer := fun _ => .ok "tr_sample" }

/-- A Stripe oracle where the charge throws. -/
def sampleOracleChargeFail : StripeOracle :=
  { charge := .threw "Your card was declined.", transfer := fun _ => .ok "tr_sample" }

/-- A transfer outcome where the first transfer fails and the rest succeed. -/
def sampleTransferOutcome : Nat → Except String String :=
  fun i => if i = 0 then .error "No such destination" else .ok "tr_sample"

/-- A Stripe oracle where the charge succeeds but the first transfer fails. -/
def sampleOracleTransferFail : StripeOracle :=
  { charge := .charged "ch_sample" none, transfer := sampleTransferOutcome }

/-- A horse whose single listed owner holds 30%: percentages do not total
100. -/
def sampleBadHorse : SHorse :=
  { hid := 700, barnName := "Comet", showName := "Comet Star",
    _owners := [{ _user := 3, percentage := 30 }] }

/-- A horse whose single listed owner holds 100%. -/
def sampleGoodHorse : SHorse :=
  { hid := 701, barnName := "Breeze", showName := "Sea Breeze",
    _owners := [{ _user := 3, percentage := 100 }] }

/-- Sample resolved CSV cells. -/
def sampleCsvFields : CsvFields :=
  { paymentType := "COMPLETE".data, invoiceDate := "1/2/2019".data,
    paymentDate := "1/3/2019".data, invoiceTotal := "31.50".data,
    invoiceTip := "0".data, totalAmountPaid := "31.50".data,
    amountPaidByUser := "31.50".data, invoicePayers := "Morgan Manager".data,
    mainServiceProviderName := "Pat Provider".data, reassigneeNames := "".data,
    concatenatedDescription := "Braiding - Comet".data }

/-- A sample invoice for the CSV export. -/
def sampleCsvInvoice : CsvInvoice :=
  { fields := sampleCsvFields, invoiceDateKey := 1546400000, paymentDateKey := 1546500000 }

/-- A second invoice fetched by the invoice-update counterexample: no
payment exists against it. -/
def sampleOtherInvoice : SInvoice :=
  { iid := 200, amount := 5, tip := some 0, deletedAt := none,
    paidInFullAt := none, paidOutsideAppAt := none, _horse := some (),
    _serviceProvider := sampleProvider, _requests := [],
    _payingUsers := [], paymentApprovals := [], _reassignees := [] }

/-- The invoice-update body of the C3 failing input: the body `_id` names
invoice 200 (payment-free) while the path id targets invoice 100, editing
invoice 100's request 10 up to a 70-rate service. -/
def sampleInvoiceUpdateBody : InvoiceUpdateBody :=
  { _id := 200,
    _requests := [{ rid := 10, services := [{ rate := 70, quantity := none }] }],
    tip := none }

/-- A paid sample request (the target of the C9 failing input). -/
def samplePaidRequest : SRequest :=
  { rid := 8, total := 50, services := [{ rate := 50, quantity := none }],
    paidAt := some (), deletedAt := none,
    _serviceProvider := sampleProvider, _reassignedTo := none }

/-- An unpaid sample request (named by the body of the C9 failing input). -/
def sampleUnpaidRequest : SRequest :=
  { rid := 7, total := 5, services := [{ rate := 5, quantity := none }],
    paidAt := none, deletedAt := none,
    _serviceProvider := sampleProvider, _reassignedTo := none }

/-- The request-update body of the C9 failing input: a full request object
(carrying `_serviceProvider` and `_horseManager`, as clients send) whose
`_id` names the unpaid request 7, while the path id targets the paid
request 8. -/
def sampleRequestUpdateBody : RequestUpdateBody :=
  { _id := 7,
    services := [{ rate := 70, quantity := none }],
    _serviceProvider := some { _id := 1, name := "Pat Provider" },
    _reassignedTo := none,
    _horseManager := some { _id := 5, name := "Harley Manager" } }

/- ==================================================================
Theorems.
================================================================== -/

set_option maxRecDepth 8000

/-- C2: a save of a horse with a non-empty `_owners` list whose percentages
do not sum to exactly 100 is rejected with the validation error `Ownership
must total 100%` and the horse is not saved; a persisted horse with a
non-empty `_owners` list has percentages summing to 100; a horse with an
empty `_owners` list or with percentages summing to 100 saves. -/
theorem horse_ownership_must_total_100 (h : SHorse) :
    (h._owners ≠ [] → ownersPercentageSum h._owners ≠ 100 →
      horseSave h = .error "Ownership must total 100%") ∧
    (∀ stored, horseSave h = .ok stored → h._owners ≠ [] →
      ownersPercentageSum h._owners = 100) ∧
    ((h._owners = [] ∨ ownersPercentageSum h._owners = 100) → horseSave h = .ok h) := by
  by_cases hl : h._owners = []
  · refine ⟨fun hne _ => absurd hl hne, fun stored _ hne => absurd hl hne, fun _ => ?_⟩
    simp [horseSave, ownersValidator, mongooseValidatorPasses, hl]
  · by_cases hsum : ownersPercentageSum h._owners = 100
    · refine ⟨fun _ hne => absurd hsum hne, fun stored _ _ => hsum, fun _ => ?_⟩
      simp [horseSave, ownersValidator, mongooseValidatorPasses, List.length_eq_zero, hl, hsum]
    · refine ⟨fun _ _ => ?_, fun stored hok hne => ?_, fun hor => ?_⟩
      · simp [horseSave, ownersValidator, mongooseValidatorPasses, List.length_eq_zero, hl, hsum]
      · exfalso
        simp [horseSave, ownersValidator, mongooseValidatorPasses, List.length_eq_zero,
          hl, hsum] at hok
      · rcases hor with he | hs
        · exact absurd he hl
        · exact absurd hs hsum

/-- C2 witness: the 30% horse is rejected with the validation message; the
100% horse saves. -/
theorem horse_ownership_must_total_100_witness :
    horseSave sampleBadHorse = .error "Ownership must total 100%" ∧
    horseSave sampleGoodHorse = .ok sampleGoodHorse := by
  constructor
  · exact (horse_ownership_must_total_100 sampleBadHorse).1
      (by simp +decide [sampleBadHorse])
      (by simp +decide [sampleBadHorse, ownersPercentageSum])
  · exact (horse_ownership_must_total_100 sampleGoodHorse).2.2
      (Or.inr (by simp +decide [sampleGoodHorse, ownersPercentageSum]))

/-- C3: evaluation of `InvoiceController.update` at the failing input. A
payment exists against invoice 100 (the path id), yet with a body `_id`
naming the payment-free invoice 200 the payment guard does not reject: the
body's edit to invoice 100's request 10 is persisted (its total changes
from 10 to 70) before the invoice save fails on the mutated `_id` — while
the claim requires the update of an invoice with payments to be rejected
with the invoice and its requests left unchanged. -/
theorem invoice_update_payment_guard_uses_body_id :
    ([samplePayment].filter (fun p => p._invoice == (100 : Nat))).length ≠ 0 ∧
    (invoiceUpdate sampleInvoiceUpdateBody 100 [samplePayment] [sampleRequest1]
      [sampleInvoice, sampleOtherInvoice]).response ≠
      .errorResponse "Invoice cannot be updated once a payment has been made." ∧
    (invoiceUpdate sampleInvoiceUpdateBody 100 [samplePayment] [sampleRequest1]
      [sampleInvoice, sampleOtherInvoice]).requests.map (fun r => r.total) = [70] ∧
    sampleRequest1.total = 10 := by
  refine ⟨by simp [samplePayment], ?_, ?_, rfl⟩ <;>
    norm_num [invoiceUpdate, applyRequestEdits, servicesTotal, assignInvoice,
      sampleInvoiceUpdateBody, samplePayment, sampleRequest1, sampleInvoice,
      sampleOtherInvoice]
  all_goals decide

/-- C9: evaluation of `RequestController.update` at the failing input: a
full request body (carrying `_serviceProvider` and `_horseManager`, so no
dereference throws) whose `_id` names the unpaid request 7 while the path
id targets the paid request 8. The paid guard passes, the handler answers
success and overwrites the paid request 8 (its total changes from 50 to
70), instead of rejecting the modification and leaving the request
unchanged. -/
theorem request_update_paid_guard_uses_body_id :
    samplePaidRequest.paidAt = some () ∧
    (requestUpdate sampleRequestUpdateBody 8
      [samplePaidRequest, sampleUnpaidRequest]).response = .ok ∧
    (requestUpdate sampleRequestUpdateBody 8
      [samplePaidRequest, sampleUnpaidRequest]).requests.map (fun r => r.total) = [70, 5] := by
  refine ⟨rfl, ?_, ?_⟩ <;>
    norm_num [requestUpdate, servicesTotal, sampleRequestUpdateBody,
      samplePaidRequest, sampleUnpaidRequest]

/-- The double `toFixed(2)` pending-transfer amount is simply the owner's
share rounded to the nearest cent, expressed in cents. -/
theorem transferCentsAmount_eq (q : ℚ) :
    transferCentsAmount q = ((⌊q * 100 + 1/2⌋ : ℤ) : ℚ) := by
  unfold transferCentsAmount jsToFixed2
  have h1 : ((⌊q * 100 + 1/2⌋ : ℤ) : ℚ) / 100 * 100 = ((⌊q * 100 + 1/2⌋ : ℤ) : ℚ) := by
    field_simp
  rw [h1]
  have h2 : ((⌊q * 100 + 1/2⌋ : ℤ) : ℚ) * 100 + 1/2 =
      ((100 * ⌊q * 100 + 1/2⌋ : ℤ) : ℚ) + 1/2 := by
    push_cast
    ring
  rw [h2, Int.floor_int_add]
  have h3 : ⌊(1/2 : ℚ)⌋ = 0 := by
    rw [Int.floor_eq_zero_iff]
    constructor <;> norm_num
  rw [h3, add_zero]
  push_cast
  field_simp

/-- The pending transfers built from the invoice's requests: one per
request, in order, carrying the owner's rounded share in cents and the
reassignee's (else the request provider's) Stripe account. -/
theorem buildRequestTransfers_fst (fee p : ℚ) (reqs : List SRequest) :
    (buildRequestTransfers fee p reqs).1 = reqs.map (fun r =>
      ({ amount := transferCentsAmount (ownerPercentage p r.total),
         currency := currency,
         destination := (match r._reassignedTo with
           | some reassignee => reassignee
           | none => r._serviceProvider).stripeSellerId }, some r)) := by
  induction reqs with
  | nil => rfl
  | cons r rest ih => simp [buildRequestTransfers, ih]

/-- The payout loop appends exactly one transaction per pending transfer. -/
theorem processTransfers_length (tr : Nat → Except String String)
    (chargeId : String) (sb pu : Nat) (bsp : Option Nat) (ae ipe : String) :
    ∀ (pts : List (PendingTransfer × Option SRequest)) (i : Nat),
      ((processTransfers tr chargeId sb pu bsp ae ipe i pts).1).length = pts.length := by
  intro pts
  induction pts with
  | nil => intro i; rfl
  | cons hd rest ih =>
    intro i
    cases hd
    simp [processTransfers, ih]

/-- The j-th transaction appended by the payout loop started at index i is
the transaction of the j-th pending transfer, stamped with the outcome of
the (i+j)-th Stripe transfer call. -/
theorem processTransfers_getElem (tr : Nat → Except String String)
    (chargeId : String) (sb pu : Nat) (bsp : Option Nat) (ae ipe : String) :
    ∀ (pts : List (PendingTransfer × Option SRequest)) (i j : Nat),
      ((processTransfers tr chargeId sb pu bsp ae ipe i pts).1)[j]? =
        (pts[j]?).map (fun pt =>
          mkTransaction chargeId sb pu bsp pt.2 (transferToken (tr (i + j)))) := by
  intro pts
  induction pts with
  | nil => intro i j; rfl
  | cons hd rest ih =>
    intro i j
    cases hd
    cases j with
    | zero => simp [processTransfers]
    | succ j' =>
      have harith : i + 1 + j' = i + (j' + 1) := by omega
      simp [processTransfers, ih (i + 1) j', harith]

/-- Unfolding of `paymentCreate` on the fully guarded path with a clean
charge: the handler runs the after-success phase on the created payment and
the assembled pending transfers. -/
theorem paymentCreate_success_eq (env : Env) (reqUser : SUser) (body : PaymentBody)
    (invoice : SInvoice) (users : List SUser) (payments : List SPayment)
    (freshPid : Nat) (oracle : StripeOracle) (payingUserId : Nat)
    (payingUser : SUser) (c chargeId : String)
    (hDel : invoice.deletedAt = none)
    (hPU : body._payingUser = some payingUserId)
    (hFind : users.find? (fun u => u.uid == payingUserId) = some payingUser)
    (hCust : payingUser.stripeCustomerId = some c)
    (hSetup : payingUser.accountSetupComplete = true)
    (hPrev : payments.filter (fun p =>
      p._invoice == body._invoice && p._payingUser == payingUserId) = [])
    (hCharge : oracle.charge = .charged chargeId none) :
    paymentCreate env reqUser body (some invoice) users payments freshPid oracle =
      paymentCreateAfterSuccess env body invoice payments
        (newPaymentOf reqUser body payingUserId freshPid)
        (chargeCentsOf env body invoice)
        (pendingTransfersOf env body invoice)
        chargeId oracle.transfer := by
  by_cases h0 : 0 < ownerPercentage body.percentOfInvoice (body.tip.getD 0) <;>
    simp [paymentCreate, hDel, hPU, hFind, hCust, hSetup, hPrev, hCharge,
      newPaymentOf, pendingTransfersOf, chargeCentsOf, runningTotalOf, h0]

/-- Unfolding of `paymentCreate` on the fully guarded path when the charge
call throws. -/
theorem paymentCreate_chargeFailed_eq (env : Env) (reqUser : SUser)
    (body : PaymentBody) (invoice : SInvoice) (users : List SUser)
    (payments : List SPayment) (freshPid : Nat) (oracle : StripeOracle)
    (payingUserId : Nat) (payingUser : SUser) (c msg : String)
    (hDel : invoice.deletedAt = none)
    (hPU : body._payingUser = some payingUserId)
    (hFind : users.find? (fun u => u.uid == payingUserId) = some payingUser)
    (hCust : payingUser.stripeCustomerId = some c)
    (hSetup : payingUser.accountSetupComplete = true)
    (hPrev : payments.filter (fun p =>
      p._invoice == body._invoice && p._payingUser == payingUserId) = [])
    (hCharge : oracle.charge = .threw msg) :
    paymentCreate env reqUser body (some invoice) users payments freshPid oracle =
      paymentCreateChargeFailed env invoice payments msg
        (chargeCentsOf env body invoice)
        (pendingTransfersOf env body invoice) := by
  by_cases h0 : 0 < ownerPercentage body.percentOfInvoice (body.tip.getD 0) <;>
    simp [paymentCreate, hDel, hPU, hFind, hCust, hSetup, hPrev, hCharge,
      pendingTransfersOf, chargeCentsOf, runningTotalOf, h0]

/-- Unfolding of `paymentCreate` when an earlier payment by the same paying
user against the same invoice exists: the duplicate guard answers before
anything happens. -/
theorem paymentCreate_duplicate_eq (env : Env) (reqUser : SUser)
    (body : PaymentBody) (invoice : SInvoice) (users : List SUser)
    (payments : List SPayment) (freshPid : Nat) (oracle : StripeOracle)
    (payingUserId : Nat) (payingUser : SUser) (c : String)
    (hDel : invoice.deletedAt = none)
    (hPU : body._payingUser = some payingUserId)
    (hFind : users.find? (fun u => u.uid == payingUserId) = some payingUser)
    (hCust : payingUser.stripeCustomerId = some c)
    (hSetup : payingUser.accountSetupComplete = true)
    (hDup : (payments.filter (fun p =>
      p._invoice == body._invoice && p._payingUser == payingUserId)).length ≠ 0) :
    paymentCreate env reqUser body (some invoice) users payments freshPid oracle =
      earlyCreateResult
        ("A payment has already been made against this invoice for " ++ payingUser.name)
        invoice payments := by
  simp [paymentCreate, hDel, hPU, hFind, hCust, hSetup, hDup]

/-- On every guarded path (whatever the charge outcome), the pending
transfers assembled by `paymentCreate` are `pendingTransfersOf`. -/
theorem paymentCreate_pendingTransfers_eq (env : Env) (reqUser : SUser)
    (body : PaymentBody) (invoice : SInvoice) (users : List SUser)
    (payments : List SPayment) (freshPid : Nat) (oracle : StripeOracle)
    (payingUserId : Nat) (payingUser : SUser) (c : String)
    (hDel : invoice.deletedAt = none)
    (hPU : body._payingUser = some payingUserId)
    (hFind : users.find? (fun u => u.uid == payingUserId) = some payingUser)
    (hCust : payingUser.stripeCustomerId = some c)
    (hSetup : payingUser.accountSetupComplete = true)
    (hPrev : payments.filter (fun p =>
      p._invoice == body._invoice && p._payingUser == payingUserId) = []) :
    (paymentCreate env reqUser body (some invoice) users payments freshPid oracle).pendingTransfers =
      pendingTransfersOf env body invoice := by
  rcases hc : oracle.charge with msg | ⟨chargeId, failureMessage⟩
  · rw [paymentCreate_chargeFailed_eq env reqUser body invoice users payments freshPid
      oracle payingUserId payingUser c msg hDel hPU hFind hCust hSetup hPrev hc]
    rfl
  · cases failureMessage with
    | none =>
      rw [paymentCreate_success_eq env reqUser body invoice users payments freshPid
        oracle payingUserId payingUser c chargeId hDel hPU hFind hCust hSetup hPrev hc]
      unfold paymentCreateAfterSuccess
      dsimp only
      repeat' split
      all_goals rfl
    | some fm =>
      by_cases h0 : 0 < ownerPercentage body.percentOfInvoice (body.tip.getD 0) <;>
        simp [paymentCreate, hDel, hPU, hFind, hCust, hSetup, hPrev, hc,
          paymentCreateSkippedPayouts, pendingTransfersOf, h0, apply_ite]

/-- On the after-success phase the pending transfers are passed through to
the result unchanged. -/
theorem paymentCreateAfterSuccess_pendingTransfers (env : Env) (body : PaymentBody)
    (invoice : SInvoice) (payments : List SPayment) (np : SPayment) (ca : ℚ)
    (pts : List (PendingTransfer × Option SRequest)) (chargeId : String)
    (tr : Nat → Except String String) :
    (paymentCreateAfterSuccess env body invoice payments np ca pts chargeId tr).pendingTransfers =
      pts := by
  unfold paymentCreateAfterSuccess
  dsimp only
  repeat' split
  all_goals rfl

/-- On the after-success phase the failed payout count of the result is the
one accumulated by the payout loop. -/
theorem paymentCreateAfterSuccess_failedPayoutCount (env : Env) (body : PaymentBody)
    (invoice : SInvoice) (payments : List SPayment) (np : SPayment) (ca : ℚ)
    (pts : List (PendingTransfer × Option SRequest)) (chargeId : String)
    (tr : Nat → Except String String) :
    (paymentCreateAfterSuccess env body invoice payments np ca pts chargeId tr).failedPayoutCount =
      (processTransfers tr chargeId np._paymentSubmittedBy np._payingUser
        body._serviceProvider env.adminEmail invoice._serviceProvider.email 0 pts).2.1 := by
  unfold paymentCreateAfterSuccess
  dsimp only
  repeat' split
  all_goals rfl

/-- On the after-success phase, a positive failed payout count forces the
cautionary 200 response carrying the saved payment. -/
theorem paymentCreateAfterSuccess_failedPayout_response (env : Env) (body : PaymentBody)
    (invoice : SInvoice) (payments : List SPayment) (np : SPayment) (ca : ℚ)
    (pts : List (PendingTransfer × Option SRequest)) (chargeId : String)
    (tr : Nat → Except String String)
    (hFail : 0 < (paymentCreateAfterSuccess env body invoice payments np ca pts
      chargeId tr).failedPayoutCount) :
    (paymentCreateAfterSuccess env body invoice payments np ca pts chargeId tr).response =
      .okJson 200
        "Your payment has been submitted, but it may not have reached its final payee(s). Please contact HorseLinc."
        { np with transactions :=
          (processTransfers tr chargeId np._paymentSubmittedBy np._payingUser
            body._serviceProvider env.adminEmail invoice._serviceProvider.email 0 pts).1 } := by
  rw [paymentCreateAfterSuccess_failedPayoutCount] at hFail
  unfold paymentCreateAfterSuccess
  dsimp only
  rw [if_pos hFail]

/-- On the after-success phase the saved payment is the created payment
carrying the transactions appended by the payout loop. -/
theorem paymentCreateAfterSuccess_savedPayment (env : Env) (body : PaymentBody)
    (invoice : SInvoice) (payments : List SPayment) (np : SPayment) (ca : ℚ)
    (pts : List (PendingTransfer × Option SRequest)) (chargeId : String)
    (tr : Nat → Except String String) :
    (paymentCreateAfterSuccess env body invoice payments np ca pts chargeId tr).savedPayment =
      some { np with transactions :=
        (processTransfers tr chargeId np._paymentSubmittedBy np._payingUser
          body._serviceProvider env.adminEmail invoice._serviceProvider.email 0 pts).1 } := by
  unfold paymentCreateAfterSuccess
  dsimp only
  repeat' split
  all_goals rfl

/-- On the after-success phase the payment collection afterwards is the old
collection plus the saved payment. -/
theorem paymentCreateAfterSuccess_payments (env : Env) (body : PaymentBody)
    (invoice : SInvoice) (payments : List SPayment) (np : SPayment) (ca : ℚ)
    (pts : List (PendingTransfer × Option SRequest)) (chargeId : String)
    (tr : Nat → Except String String) :
    (paymentCreateAfterSuccess env body invoice payments np ca pts chargeId tr).payments =
      payments ++ [{ np with transactions :=
        (processTransfers tr chargeId np._paymentSubmittedBy np._payingUser
          body._serviceProvider env.adminEmail invoice._serviceProvider.email 0 pts).1 }] := by
  unfold paymentCreateAfterSuccess
  dsimp only
  repeat' split
  all_goals rfl

/-- C10: when a payment by the same paying user against the same invoice
already exists, and the payment create endpoint otherwise reaches the
duplicate guard, the create attempt is rejected with the duplicate error
before any Stripe charge is attempted, and the payment collection, invoice
and requests are unchanged, no payment saved, no email sent. -/
theorem duplicate_payment_rejected_before_charge (env : Env) (reqUser : SUser)
    (body : PaymentBody) (invoice : SInvoice) (users : List SUser)
    (payments : List SPayment) (freshPid : Nat) (oracle : StripeOracle)
    (payingUserId : Nat) (payingUser : SUser) (c : String)
    (hDel : invoice.deletedAt = none)
    (hPU : body._payingUser = some payingUserId)
    (hFind : users.find? (fun u => u.uid == payingUserId) = some payingUser)
    (hCust : payingUser.stripeCustomerId = some c)
    (hSetup : payingUser.accountSetupComplete = true)
    (hDup : (payments.filter (fun p =>
      p._invoice == body._invoice && p._payingUser == payingUserId)).length ≠ 0) :
    (paymentCreate env reqUser body (some invoice) users payments freshPid oracle).response =
      .errorResponse
        ("A payment has already been made against this invoice for " ++ payingUser.name) ∧
    (paymentCreate env reqUser body (some invoice) users payments freshPid oracle).payments =
      payments ∧
    (paymentCreate env reqUser body (some invoice) users payments freshPid oracle).invoice =
      some invoice ∧
    (paymentCreate env reqUser body (some invoice) users payments freshPid oracle).requests =
      invoice._requests ∧
    (paymentCreate env reqUser body (some invoice) users payments freshPid oracle).emails = [] ∧
    (paymentCreate env reqUser body (some invoice) users payments freshPid oracle).chargeAttempted =
      false ∧
    (paymentCreate env reqUser body (some invoice) users payments freshPid oracle).savedPayment =
      none := by
  rw [paymentCreate_duplicate_eq env reqUser body invoice users payments freshPid oracle
    payingUserId payingUser c hDel hPU hFind hCust hSetup hDup]
  simp [earlyCreateResult]

/-- C10 witness: a second payment by the sample payer against the sample
invoice is rejected with the duplicate error and nothing changes. -/
theorem duplicate_payment_rejected_before_charge_witness :
    (paymentCreate sampleEnv samplePayer sampleBody (some sampleInvoice) sampleUsers
      [samplePayment] 501 sampleOracleOk).response =
      .errorResponse
        ("A payment has already been made against this invoice for " ++ samplePayer.name) ∧
    (paymentCreate sampleEnv samplePayer sampleBody (some sampleInvoice) sampleUsers
      [samplePayment] 501 sampleOracleOk).payments = [samplePayment] ∧
    (paymentCreate sampleEnv samplePayer sampleBody (some sampleInvoice) sampleUsers
      [samplePayment] 501 sampleOracleOk).invoice = some sampleInvoice ∧
    (paymentCreate sampleEnv samplePayer sampleBody (some sampleInvoice) sampleUsers
      [samplePayment] 501 sampleOracleOk).requests = sampleInvoice._requests ∧
    (paymentCreate sampleEnv samplePayer sampleBody (some sampleInvoice) sampleUsers
      [samplePayment] 501 sampleOracleOk).emails = [] ∧
    (paymentCreate sampleEnv samplePayer sampleBody (some sampleInvoice) sampleUsers
      [samplePayment] 501 sampleOracleOk).chargeAttempted = false ∧
    (paymentCreate sampleEnv samplePayer sampleBody (some sampleInvoice) sampleUsers
      [samplePayment] 501 sampleOracleOk).savedPayment = none :=
  duplicate_payment_rejected_before_charge sampleEnv samplePayer sampleBody sampleInvoice
    sampleUsers [samplePayment] 501 sampleOracleOk 3 samplePayer "cus_sample"
    rfl rfl rfl rfl rfl (by decide)

/-- C4: when the single Stripe charge call throws, the handler removes the
just-created payment (the payment collection is unchanged and no payment is
saved), resets the invoice's `paidInFullAt` to null, emails the admin with
subject `Stripe Charge Failure`, and answers with an error response carrying
the error's message (or the fallback text). -/
theorem failed_charge_rolls_back_payment (env : Env) (reqUser : SUser)
    (body : PaymentBody) (invoice : SInvoice) (users : List SUser)
    (payments : List SPayment) (freshPid : Nat) (oracle : StripeOracle)
    (payingUserId : Nat) (payingUser : SUser) (c msg : String)
    (hDel : invoice.deletedAt = none)
    (hPU : body._payingUser = some payingUserId)
    (hFind : users.find? (fun u => u.uid == payingUserId) = some payingUser)
    (hCust : payingUser.stripeCustomerId = some c)
    (hSetup : payingUser.accountSetupComplete = true)
    (hPrev : payments.filter (fun p =>
      p._invoice == body._invoice && p._payingUser == payingUserId) = [])
    (hCharge : oracle.charge = .threw msg) :
    (paymentCreate env reqUser body (some invoice) users payments freshPid oracle).payments =
      payments ∧
    (paymentCreate env reqUser body (some invoice) users payments freshPid oracle).savedPayment =
      none ∧
    (paymentCreate env reqUser body (some invoice) users payments freshPid oracle).invoice =
      some { invoice with paidInFullAt := none } ∧
    ({ recipients := [env.adminEmail], subject := "Stripe Charge Failure" } : EmailEvent) ∈
      (paymentCreate env reqUser body (some invoice) users payments freshPid oracle).emails ∧
    (paymentCreate env reqUser body (some invoice) users payments freshPid oracle).response =
      .errorResponse
        (if msg = "" then "Your payment did not go through. Please contact HorseLinc."
         else msg) := by
  rw [paymentCreate_chargeFailed_eq env reqUser body invoice users payments freshPid oracle
    payingUserId payingUser c msg hDel hPU hFind hCust hSetup hPrev hCharge]
  simp [paymentCreateChargeFailed]

/-- C4 witness: with the sample data and a charge that throws `Your card
was declined.`, the rollback happens and the error is reported. -/
theorem failed_charge_rolls_back_payment_witness :
    (paymentCreate sampleEnv samplePayer sampleBody (some sampleInvoice) sampleUsers
      [] 500 sampleOracleChargeFail).payments = [] ∧
    (paymentCreate sampleEnv samplePayer sampleBody (some sampleInvoice) sampleUsers
      [] 500 sampleOracleChargeFail).savedPayment = none ∧
    (paymentCreate sampleEnv samplePayer sampleBody (some sampleInvoice) sampleUsers
      [] 500 sampleOracleChargeFail).invoice =
      some { sampleInvoice with paidInFullAt := none } ∧
    ({ recipients := [sampleEnv.adminEmail], subject := "Stripe Charge Failure" } : EmailEvent) ∈
      (paymentCreate sampleEnv samplePayer sampleBody (some sampleInvoice) sampleUsers
        [] 500 sampleOracleChargeFail).emails ∧
    (paymentCreate sampleEnv samplePayer sampleBody (some sampleInvoice) sampleUsers
      [] 500 sampleOracleChargeFail).response =
      .errorResponse
        (if "Your card was declined." = "" then
          "Your payment did not go through. Please contact HorseLinc."
         else "Your card was declined.") :=
  failed_charge_rolls_back_payment sampleEnv samplePayer sampleBody sampleInvoice
    sampleUsers [] 500 sampleOracleChargeFail 3 samplePayer "cus_sample"
    "Your card was declined." rfl rfl rfl rfl rfl rfl rfl

/-- C5: for every request on the invoice being paid, the assembled pending
transfer carries the paying user's percentage share of the request's total
(`percentOfInvoice/100 * total`), rounded to the nearest cent and expressed
in cents, destined to the reassigned provider's Stripe account when the
request has a `_reassignedTo` and to the request's main service provider's
account otherwise. -/
theorem pending_transfer_amounts_and_destinations (env : Env) (reqUser : SUser)
    (body : PaymentBody) (invoice : SInvoice) (users : List SUser)
    (payments : List SPayment) (freshPid : Nat) (oracle : StripeOracle)
    (payingUserId : Nat) (payingUser : SUser) (c : String)
    (hDel : invoice.deletedAt = none)
    (hPU : body._payingUser = some payingUserId)
    (hFind : users.find? (fun u => u.uid == payingUserId) = some payingUser)
    (hCust : payingUser.stripeCustomerId = some c)
    (hSetup : payingUser.accountSetupComplete = true)
    (hPrev : payments.filter (fun p =>
      p._invoice == body._invoice && p._payingUser == payingUserId) = []) :
    ((paymentCreate env reqUser body (some invoice) users payments freshPid
      oracle).pendingTransfers).take invoice._requests.length =
      invoice._requests.map (fun r =>
        ({ amount := ((⌊ownerPercentage body.percentOfInvoice r.total * 100 + 1/2⌋ : ℤ) : ℚ),
           currency := "usd",
           destination := (match r._reassignedTo with
             | some reassignee => reassignee
             | none => r._serviceProvider).stripeSellerId }, some r)) := by
  rw [paymentCreate_pendingTransfers_eq env reqUser body invoice users payments freshPid
    oracle payingUserId payingUser c hDel hPU hFind hCust hSetup hPrev]
  unfold pendingTransfersOf
  rw [buildRequestTransfers_fst]
  by_cases h0 : 0 < ownerPercentage body.percentOfInvoice (body.tip.getD 0) <;>
    simp [h0, List.take_left', transferCentsAmount_eq, currency]

/-- C5 witness: instantiation at the sample invoice (one plain and one
reassigned request). -/
theorem pending_transfer_amounts_and_destinations_witness :
    ((paymentCreate sampleEnv samplePayer sampleBody (some sampleInvoice) sampleUsers [] 500
      sampleOracleOk).pendingTransfers).take sampleInvoice._requests.length =
      sampleInvoice._requests.map (fun r =>
        ({ amount := ((⌊ownerPercentage sampleBody.percentOfInvoice r.total * 100 + 1/2⌋ : ℤ) : ℚ),
           currency := "usd",
           destination := (match r._reassignedTo with
             | some reassignee => reassignee
             | none => r._serviceProvider).stripeSellerId }, some r)) :=
  pending_transfer_amounts_and_destinations sampleEnv samplePayer sampleBody sampleInvoice
    sampleUsers [] 500 sampleOracleOk 3 samplePayer "cus_sample" rfl rfl rfl rfl rfl rfl

/-- C7: when the charge succeeds but at least one payout fails
(`failedPayoutCount > 0`), the endpoint responds with HTTP status 200
carrying the cautionary message together with the saved payment, not with
an error response. -/
theorem partial_payout_failure_returns_200_with_caution (env : Env) (reqUser : SUser)
    (body : PaymentBody) (invoice : SInvoice) (users : List SUser)
    (payments : List SPayment) (freshPid : Nat) (oracle : StripeOracle)
    (payingUserId : Nat) (payingUser : SUser) (c chargeId : String)
    (hDel : invoice.deletedAt = none)
    (hPU : body._payingUser = some payingUserId)
    (hFind : users.find? (fun u => u.uid == payingUserId) = some payingUser)
    (hCust : payingUser.stripeCustomerId = some c)
    (hSetup : payingUser.accountSetupComplete = true)
    (hPrev : payments.filter (fun p =>
      p._invoice == body._invoice && p._payingUser == payingUserId) = [])
    (hCharge : oracle.charge = .charged chargeId none)
    (hFail : 0 < (paymentCreate env reqUser body (some invoice) users payments freshPid
      oracle).failedPayoutCount) :
    ∃ sp, (paymentCreate env reqUser body (some invoice) users payments freshPid
        oracle).savedPayment = some sp ∧
      (paymentCreate env reqUser body (some invoice) users payments freshPid oracle).response =
        .okJson 200
          "Your payment has been submitted, but it may not have reached its final payee(s). Please contact HorseLinc."
          sp := by
  rw [paymentCreate_success_eq env reqUser body invoice users payments freshPid oracle
    payingUserId payingUser c chargeId hDel hPU hFind hCust hSetup hPrev hCharge] at hFail ⊢
  exact ⟨_, paymentCreateAfterSuccess_savedPayment _ _ _ _ _ _ _ _ _,
    paymentCreateAfterSuccess_failedPayout_response _ _ _ _ _ _ _ _ _ hFail⟩

/-- The sample run with a failing first transfer has exactly one failed
payout. -/
theorem sample_transferFail_failedPayoutCount :
    (paymentCreate sampleEnv samplePayer sampleBody (some sampleInvoice) sampleUsers [] 500
      sampleOracleTransferFail).failedPayoutCount = 1 := by
  rw [paymentCreate_success_eq sampleEnv samplePayer sampleBody sampleInvoice sampleUsers
    [] 500 sampleOracleTransferFail 3 samplePayer "cus_sample" "ch_sample"
    rfl rfl rfl rfl rfl rfl rfl]
  rw [paymentCreateAfterSuccess_failedPayoutCount]
  simp [pendingTransfersOf, buildRequestTransfers, processTransfers, sampleTransferOutcome,
    sampleBody, sampleInvoice, sampleRequest1, sampleRequest2, ownerPercentage,
    sampleOracleTransferFail]

/-- C7 witness: the sample run with a failing first transfer answers 200
with the cautionary message. -/
theorem partial_payout_failure_returns_200_with_caution_witness :
    ∃ sp, (paymentCreate sampleEnv samplePayer sampleBody (some sampleInvoice) sampleUsers
        [] 500 sampleOracleTransferFail).savedPayment = some sp ∧
      (paymentCreate sampleEnv samplePayer sampleBody (some sampleInvoice) sampleUsers
        [] 500 sampleOracleTransferFail).response =
        .okJson 200
          "Your payment has been submitted, but it may not have reached its final payee(s). Please contact HorseLinc."
          sp :=
  partial_payout_failure_returns_200_with_caution sampleEnv samplePayer sampleBody
    sampleInvoice sampleUsers [] 500 sampleOracleTransferFail 3 samplePayer "cus_sample"
    "ch_sample" rfl rfl rfl rfl rfl rfl rfl
    (by simp [sample_transferFail_failedPayoutCount])

/-- On the after-success phase the invoice afterwards carries the tip when
the new payment is the invoice's first, and `paidInFullAt` exactly when the
number of payments now recorded against the invoice equals the number of
paying users. -/
theorem paymentCreateAfterSuccess_invoice (env : Env) (body : PaymentBody)
    (invoice : SInvoice) (payments : List SPayment) (np : SPayment) (ca : ℚ)
    (pts : List (PendingTransfer × Option SRequest)) (chargeId : String)
    (tr : Nat → Except String String) :
    (paymentCreateAfterSuccess env body invoice payments np ca pts chargeId tr).invoice =
      some (
        if ((payments ++ [np]).filter (fun p => p._invoice == body._invoice)).length =
            invoice._payingUsers.length then
          { (if ((payments ++ [np]).filter (fun p => p._invoice == body._invoice)).length = 1
             then { invoice with tip := body.tip } else invoice) with paidInFullAt := some () }
        else
          (if ((payments ++ [np]).filter (fun p => p._invoice == body._invoice)).length = 1
           then { invoice with tip := body.tip } else invoice)) := by
  unfold paymentCreateAfterSuccess
  dsimp only
  repeat' split
  all_goals rfl

/-- C1: for a payment successfully created through the payment create
endpoint (charge succeeds, no failure message) against an invoice whose
`paidInFullAt` starts null, the resulting invoice's `paidInFullAt` is set
exactly when the number of payments now recorded against the invoice equals
the number of entries in its `_payingUsers` array, and stays null
otherwise. -/
theorem payment_marks_invoice_paid_only_when_all_payers_paid (env : Env)
    (reqUser : SUser) (body : PaymentBody) (invoice : SInvoice) (users : List SUser)
    (payments : List SPayment) (freshPid : Nat) (oracle : StripeOracle)
    (payingUserId : Nat) (payingUser : SUser) (c chargeId : String)
    (hDel : invoice.deletedAt = none)
    (hPU : body._payingUser = some payingUserId)
    (hFind : users.find? (fun u => u.uid == payingUserId) = some payingUser)
    (hCust : payingUser.stripeCustomerId = some c)
    (hSetup : payingUser.accountSetupComplete = true)
    (hPrev : payments.filter (fun p =>
      p._invoice == body._invoice && p._payingUser == payingUserId) = [])
    (hCharge : oracle.charge = .charged chargeId none)
    (hIid : invoice.iid = body._invoice)
    (hPaid : invoice.paidInFullAt = none) :
    ∃ inv2, (paymentCreate env reqUser body (some invoice) users payments freshPid
        oracle).invoice = some inv2 ∧
      (inv2.paidInFullAt.isSome ↔
        (((paymentCreate env reqUser body (some invoice) users payments freshPid
          oracle).payments).filter (fun p => p._invoice == invoice.iid)).length =
          invoice._payingUsers.length) := by
  rw [paymentCreate_success_eq env reqUser body invoice users payments freshPid oracle
    payingUserId payingUser c chargeId hDel hPU hFind hCust hSetup hPrev hCharge]
  rw [paymentCreateAfterSuccess_invoice, paymentCreateAfterSuccess_payments, hIid]
  have h1 : ((payments ++ [newPaymentOf reqUser body payingUserId freshPid]).filter
      (fun p => p._invoice == body._invoice)).length =
      (payments.filter (fun p => p._invoice == body._invoice)).length + 1 := by
    simp [List.filter_append, newPaymentOf]
  have h2 : ∀ txs, ((payments ++ [{ newPaymentOf reqUser body payingUserId freshPid with
      transactions := txs }]).filter
      (fun (p : SPayment) => p._invoice == body._invoice)).length =
      (payments.filter (fun p => p._invoice == body._invoice)).length + 1 := by
    intro txs
    simp [List.filter_append, newPaymentOf]
  rw [h1, h2]
  by_cases hN : (payments.filter (fun p => p._invoice == body._invoice)).length + 1 =
      invoice._payingUsers.length
  · exact ⟨_, rfl, by simp [hN]⟩
  · refine ⟨_, rfl, ?_⟩
    rw [if_neg hN]
    by_cases h1' : (payments.filter (fun p => p._invoice == body._invoice)).length + 1 = 1 <;>
      simp [h1', hPaid, hN]
    all_goals omega

/-- C1 witness: the sample invoice has one paying user and no prior
payments, so the single successful payment marks it paid in full. -/
theorem payment_marks_invoice_paid_only_when_all_payers_paid_witness :
    ∃ inv2, (paymentCreate sampleEnv samplePayer sampleBody (some sampleInvoice)
        sampleUsers [] 500 sampleOracleOk).invoice = some inv2 ∧
      (inv2.paidInFullAt.isSome ↔
        (((paymentCreate sampleEnv samplePayer sampleBody (some sampleInvoice)
          sampleUsers [] 500 sampleOracleOk).payments).filter
            (fun p => p._invoice == sampleInvoice.iid)).length =
          sampleInvoice._payingUsers.length) :=
  payment_marks_invoice_paid_only_when_all_payers_paid sampleEnv samplePayer sampleBody
    sampleInvoice sampleUsers [] 500 sampleOracleOk 3 samplePayer "cus_sample" "ch_sample"
    rfl rfl rfl rfl rfl rfl rfl rfl rfl

/-- C6: after a successful charge, the saved payment carries exactly one
transaction per pending transfer, in order: the j-th transaction is stamped
with the outcome of the j-th Stripe transfer call (the transfer id on
success, the empty string when the call threw), is a `request` transaction
when the transfer is tied to a request and a `tip` transaction otherwise. -/
theorem one_transaction_per_pending_transfer (env : Env) (reqUser : SUser)
    (body : PaymentBody) (invoice : SInvoice) (users : List SUser)
    (payments : List SPayment) (freshPid : Nat) (oracle : StripeOracle)
    (payingUserId : Nat) (payingUser : SUser) (c chargeId : String)
    (hDel : invoice.deletedAt = none)
    (hPU : body._payingUser = some payingUserId)
    (hFind : users.find? (fun u => u.uid == payingUserId) = some payingUser)
    (hCust : payingUser.stripeCustomerId = some c)
    (hSetup : payingUser.accountSetupComplete = true)
    (hPrev : payments.filter (fun p =>
      p._invoice == body._invoice && p._payingUser == payingUserId) = [])
    (hCharge : oracle.charge = .charged chargeId none) :
    ∃ sp, (paymentCreate env reqUser body (some invoice) users payments freshPid
        oracle).savedPayment = some sp ∧
      sp.transactions.length = (paymentCreate env reqUser body (some invoice) users
        payments freshPid oracle).pendingTransfers.length ∧
      ∀ j, j < (paymentCreate env reqUser body (some invoice) users payments freshPid
          oracle).pendingTransfers.length →
        ∃ txn pt, sp.transactions[j]? = some txn ∧
          (paymentCreate env reqUser body (some invoice) users payments freshPid
            oracle).pendingTransfers[j]? = some pt ∧
          txn.transactionType = (if (pt : PendingTransfer × Option SRequest).2.isSome
            then "request" else "tip") ∧
          txn.transferId = transferToken (oracle.transfer j) ∧
          (∀ e, oracle.transfer j = .error e → txn.transferId = "") := by
  rw [paymentCreate_success_eq env reqUser body invoice users payments freshPid oracle
    payingUserId payingUser c chargeId hDel hPU hFind hCust hSetup hPrev hCharge,
    paymentCreateAfterSuccess_savedPayment, paymentCreateAfterSuccess_pendingTransfers]
  refine ⟨_, rfl, ?_, ?_⟩
  · exact processTransfers_length _ _ _ _ _ _ _ _ 0
  · intro j hj
    have hget := processTransfers_getElem oracle.transfer chargeId
      (newPaymentOf reqUser body payingUserId freshPid)._paymentSubmittedBy
      (newPaymentOf reqUser body payingUserId freshPid)._payingUser
      body._serviceProvider env.adminEmail invoice._serviceProvider.email
      (pendingTransfersOf env body invoice) 0 j
    have hpt : (pendingTransfersOf env body invoice)[j]? =
        some ((pendingTransfersOf env body invoice).get ⟨j, hj⟩) := by
      simp [List.getElem?_eq_getElem hj]
    refine ⟨mkTransaction chargeId
        (newPaymentOf reqUser body payingUserId freshPid)._paymentSubmittedBy
        (newPaymentOf reqUser body payingUserId freshPid)._payingUser
        body._serviceProvider ((pendingTransfersOf env body invoice).get ⟨j, hj⟩).2
        (transferToken (oracle.transfer j)),
      (pendingTransfersOf env body invoice).get ⟨j, hj⟩, ?_, hpt, ?_, ?_, ?_⟩
    · show ((processTransfers oracle.transfer chargeId
        (newPaymentOf reqUser body payingUserId freshPid)._paymentSubmittedBy
        (newPaymentOf reqUser body payingUserId freshPid)._payingUser
        body._serviceProvider env.adminEmail invoice._serviceProvider.email 0
        (pendingTransfersOf env body invoice)).1)[j]? = _
      rw [hget, hpt]
      simp
    · rcases h2 : ((pendingTransfersOf env body invoice).get ⟨j, hj⟩).2 with _ | r <;>
        simp [mkTransaction, h2]
    · rcases h2 : ((pendingTransfersOf env body invoice).get ⟨j, hj⟩).2 with _ | r <;>
        simp [mkTransaction, h2]
    · intro e he
      rcases h2 : ((pendingTransfersOf env body invoice).get ⟨j, hj⟩).2 with _ | r <;>
        simp [mkTransaction, h2, he, transferToken]

/-- C6 witness: instantiation at the sample data with every transfer
succeeding. -/
theorem one_transaction_per_pending_transfer_witness :
    ∃ sp, (paymentCreate sampleEnv samplePayer sampleBody (some sampleInvoice)
        sampleUsers [] 500 sampleOracleOk).savedPayment = some sp ∧
      sp.transactions.length = (paymentCreate sampleEnv samplePayer sampleBody
        (some sampleInvoice) sampleUsers [] 500 sampleOracleOk).pendingTransfers.length ∧
      ∀ j, j < (paymentCreate sampleEnv samplePayer sampleBody (some sampleInvoice)
          sampleUsers [] 500 sampleOracleOk).pendingTransfers.length →
        ∃ txn pt, sp.transactions[j]? = some txn ∧
          (paymentCreate sampleEnv samplePayer sampleBody (some sampleInvoice)
            sampleUsers [] 500 sampleOracleOk).pendingTransfers[j]? = some pt ∧
          txn.transactionType = (if (pt : PendingTransfer × Option SRequest).2.isSome
            then "request" else "tip") ∧
          txn.transferId = transferToken (sampleOracleOk.transfer j) ∧
          (∀ e, sampleOracleOk.transfer j = .error e → txn.transferId = "") :=
  one_transaction_per_pending_transfer sampleEnv samplePayer sampleBody sampleInvoice
    sampleUsers [] 500 sampleOracleOk 3 samplePayer "cus_sample" "ch_sample"
    rfl rfl rfl rfl rfl rfl rfl

/-- C8: the CSV export emits, after the fixed header row, exactly one
`toCsvRow` line per exported invoice (a permutation of the per-invoice
rows, newest first, each CRLF-terminated, with the final output trimmed);
each row is the cell concatenation with its single trailing comma clipped;
and the header row contains the `Amount Paid By Me` and `Service Provider`
columns exactly when the requesting user is a horse manager. -/
theorem csv_export_rows_and_columns (user : SUser) (invoices : List CsvInvoice)
    (f : CsvFields) :
    (∃ rows, List.Perm rows (invoices.map fun invoice => toCsvRow user invoice.fields) ∧
      convertAllToCsv invoices user =
        jsTrim (getCsvHeaders user ++
          (rows.map fun row => row ++ ("\r\n").data).flatten)) ∧
    (toCsvRow user f ++ [','] = rawCsvRow user f) ∧
    ("Amount Paid By Me".data <:+: getCsvHeaders user ↔ isManager user = true) ∧
    ("Service Provider".data <:+: getCsvHeaders user ↔ isManager user = true) := by
  refine ⟨?_, ?_, ?_, ?_⟩
  · refine ⟨((invoices.map (fun invoice => (invoice, toCsvRow user invoice.fields))).mergeSort
      (csvSortLe user)).map Prod.snd, ?_, ?_⟩
    · have h1 := List.mergeSort_perm
        (invoices.map (fun invoice => (invoice, toCsvRow user invoice.fields)))
        (csvSortLe user)
      have h2 := h1.map Prod.snd
      simpa [List.map_map, Function.comp] using h2
    · unfold convertAllToCsv
      dsimp only
      rw [List.map_map]
      rfl
  · have hc : (",").data = ([','] : List Char) := rfl
    unfold toCsvRow rawCsvRow
    rw [hc, List.dropLast_concat]
  · cases hm : isManager user <;> simp only [getCsvHeaders, hm] <;> simp <;> decide
  · cases hm : isManager user <;> simp only [getCsvHeaders, hm] <;> simp <;> decide

/-- Supporting fact for C3: the delete endpoint's payment guard is keyed on
the path id and does reject an invoice with payments, leaving everything
unchanged. -/
theorem invoiceDestroy_rejects_with_payments (paramsId : Nat) (reqUser : SUser)
    (payments : List SPayment) (requests : List SRequest) (invoices : List SInvoice)
    (invoice : SInvoice)
    (hFind : invoices.find? (fun i => i.iid == paramsId) = some invoice)
    (hAuth : invoice._serviceProvider.uid = reqUser.uid)
    (hPay : (payments.filter (fun p => p._invoice == paramsId)).length ≠ 0) :
    invoiceDestroy paramsId reqUser payments requests invoices =
      { response := .errorResponse "There is already a payment against this invoice.",
        requests := requests, invoices := invoices } := by
  simp [invoiceDestroy, hFind, hAuth, hPay]

/-- Supporting fact for C3: the update endpoint does reject whenever the
body-supplied `_id` has payments against it — in particular in the normal
case where the body `_id` equals the path id. -/
theorem invoiceUpdate_rejects_when_body_id_has_payments (body : InvoiceUpdateBody)
    (paramsId : Nat) (payments : List SPayment) (requests : List SRequest)
    (invoices : List SInvoice)
    (hPay : (payments.filter (fun p => p._invoice == body._id)).length ≠ 0) :
    invoiceUpdate body paramsId payments requests invoices =
      { response := .errorResponse "Invoice cannot be updated once a payment has been made.",
        requests := requests, invoices := invoices } := by
  simp [invoiceUpdate, hPay]

/-- Supporting fact for C9: the update endpoint does reject with the paid
error whenever the request fetched by the body `_id` is paid — in
particular in the normal case where the body `_id` equals the path id. -/
theorem requestUpdate_rejects_paid_body_request (body : RequestUpdateBody)
    (paramsId : Nat) (requests : List SRequest) (r : SRequest)
    (hFind : requests.find? (fun q => q.rid == body._id) = some r)
    (hPaid : r.paidAt.isSome) :
    requestUpdate body paramsId requests =
      { response := .errorResponse "This request has already been paid",
        requests := requests } := by
  simp [requestUpdate, hFind, hPaid]

end HorseLinc
